import Mathlib

/-!
Verification of the rate-limiting / quota-enforcement core of the
TariffNavigator backend.

Shallow embedding of:
  - backend/app/models/rate_limit.py        (RateLimit, OrganizationQuotaUsage,
                                             RateLimitViolation rows)
  - backend/app/services/rate_limiter.py    (RateLimiterService)
  - backend/app/api/deps_rate_limit.py      (check_user_rate_limit,
                                             check_calculation_quota)
  - backend/app/middleware/rate_limit.py    (RateLimitMiddleware.dispatch)
  - backend/app/core/rate_limit_config.py   (static limit tables)

Timestamps are modelled as integers (seconds); timedelta(seconds=w) is w and
timedelta(days=d) is d * 86400.  Database tables are lists of rows; the
SQLAlchemy session's scalar_one_or_none is modelled faithfully, raising
(Except.error) when more than one row matches.  uuid4 values are passed in as
explicit fresh-identifier arguments.
-/

/-- A row of the rate_limits table (models/rate_limit.py, class RateLimit).
Field order follows the column order of the model. -/
structure RateLimit where
  id : String
  identifier : String
  identifier_type : String
  request_count : Int
  window_start : Int
  window_end : Int
  endpoint : Option String
  created_at : Int
deriving DecidableEq, Repr

/-- A row of the rate_limit_violations table
(models/rate_limit.py, class RateLimitViolation). -/
structure RateLimitViolation where
  id : String
  identifier : String
  identifier_type : String
  user_id : Option String
  violation_type : String
  attempted_count : Int
  limit : Int
  endpoint : Option String
  user_agent : Option String
  created_at : Int
deriving DecidableEq, Repr

/-- A row of the organization_quota_usage table
(models/rate_limit.py, class OrganizationQuotaUsage). -/
structure OrganizationQuotaUsage where
  id : String
  organization_id : String
  year_month : String
  calculation_count : Int
  quota_limit : Int
  created_at : Int
  updated_at : Option Int
deriving DecidableEq, Repr

/-- The fields of models/organization.py used by the quota path. -/
structure Organization where
  id : String
  plan : String
  max_calculations_per_month : Int
deriving DecidableEq, Repr

/-- Errors raised by the backing store during a query: the session being
unreachable, or scalar_one_or_none finding several rows. -/
inductive DBErr where
  | unavailable
  | multipleResults
deriving DecidableEq, Repr

/-- SQLAlchemy's Result.scalar_one_or_none: none for an empty result, the
row when it is unique, and an exception when several rows match. -/
def scalarOneOrNone {α : Type} : List α → Except DBErr (Option α)
  | [] => Except.ok none
  | [a] => Except.ok (some a)
  | _ => Except.error DBErr.multipleResults

/-- The WHERE clause of the window lookup in
RateLimiterService.check_rate_limit: identifier and identifier_type match,
window_start >= now - window_seconds (the local variable window_start of the
source) and window_end > now. -/
def windowMatches (identifier identifier_type : String) (window_start now : Int)
    (r : RateLimit) : Bool :=
  r.identifier == identifier && r.identifier_type == identifier_type &&
    decide (window_start ≤ r.window_start) && decide (now < r.window_end)

/-- Result triple of check_rate_limit: (is_allowed, remaining, reset_time). -/
structure CheckResult where
  is_allowed : Bool
  remaining : Int
  reset_time : Int
deriving DecidableEq, Repr

/-- RateLimiterService.check_rate_limit (services/rate_limiter.py).
Looks up the active window for (identifier, identifier_type); if one exists
and request_count >= limit it rejects without mutating state, if one exists
under the limit it increments it, and otherwise it creates a window with
request_count = 1 covering [now, now + window_seconds).  Returns the result
triple together with the table after the call. -/
def check_rate_limit (db : List RateLimit) (identifier identifier_type : String)
    (limit window_seconds now : Int) (freshId : String) :
    Except DBErr (CheckResult × List RateLimit) :=
  let window_start := now - window_seconds
  let window_end := now + window_seconds
  match scalarOneOrNone
      (db.filter (windowMatches identifier identifier_type window_start now)) with
  | Except.error e => Except.error e
  | Except.ok (some r) =>
    if r.request_count ≥ limit then
      Except.ok (⟨false, 0, r.window_end⟩, db)
    else
      let db' := db.map fun s =>
        if s.id == r.id then { s with request_count := s.request_count + 1 } else s
      Except.ok (⟨true, limit - (r.request_count + 1), r.window_end⟩, db')
  | Except.ok none =>
    let newRec : RateLimit :=
      ⟨freshId, identifier, identifier_type, 1, now, window_end, none, now⟩
    Except.ok (⟨true, limit - 1, window_end⟩, db ++ [newRec])

/-- RateLimiterService.log_violation: appends one violation row. -/
def log_violation (violations : List RateLimitViolation)
    (freshId identifier identifier_type violation_type : String)
    (attempted_count limit : Int) (endpoint : String)
    (user_id user_agent : Option String) (now : Int) : List RateLimitViolation :=
  violations ++ [⟨freshId, identifier, identifier_type, user_id, violation_type,
    attempted_count, limit, some endpoint, user_agent, now⟩]

/-- RateLimiterService.cleanup_old_records: deletes RateLimit rows with
created_at < now - days, returning the kept rows and the DELETE rowcount. -/
def cleanup_old_records (db : List RateLimit) (now days : Int) :
    List RateLimit × Nat :=
  let cutoff := now - days * 86400
  (db.filter (fun r => !(decide (r.created_at < cutoff))),
   (db.filter (fun r => decide (r.created_at < cutoff))).length)

/-- RateLimiterService.cleanup_old_violations: deletes violation rows with
created_at < now - days, returning the kept rows and the DELETE rowcount. -/
def cleanup_old_violations (db : List RateLimitViolation) (now days : Int) :
    List RateLimitViolation × Nat :=
  let cutoff := now - days * 86400
  (db.filter (fun r => !(decide (r.created_at < cutoff))),
   (db.filter (fun r => decide (r.created_at < cutoff))).length)

/-! Static configuration tables (core/rate_limit_config.py). -/

/-- IP_RATE_LIMITS of the config; the middleware reads the global entry. -/
def IP_RATE_LIMIT : Int := 100

/-- RATE_LIMIT_WINDOW_SECONDS of the config. -/
def RATE_LIMIT_WINDOW_SECONDS : Int := 60

/-- USER_RATE_LIMITS_BY_ROLE of the config, as an association list. -/
def USER_RATE_LIMITS_BY_ROLE : List (String × Int) :=
  [("viewer", 50), ("user", 100), ("admin", 500), ("superadmin", 999999)]

/-- Python dict .get with a default value over an association list. -/
def dictGet (d : List (String × Int)) (k : String) (dflt : Int) : Int :=
  match d.find? (fun kv => kv.1 == k) with
  | some kv => kv.2
  | none => dflt

/-- get_user_rate_limit of the config:
USER_RATE_LIMITS_BY_ROLE.get(user_role, USER_RATE_LIMITS_BY_ROLE["user"]).
The same expression is inlined in check_user_rate_limit; the inner direct
index always finds the "user" entry, its defensive default never fires. -/
def get_user_rate_limit (user_role : String) : Int :=
  dictGet USER_RATE_LIMITS_BY_ROLE user_role (dictGet USER_RATE_LIMITS_BY_ROLE "user" 100)

/-! The enforcement boundary: user-tier dependency and IP-tier middleware.
A session handle is an Option of the table contents: none stands for an
unreachable store, in which case every query raises. -/

/-- A check_rate_limit call issued through a session handle: an unreachable
store raises DBErr.unavailable before the query runs. -/
def runCheck (conn : Option (List RateLimit)) (identifier identifier_type : String)
    (limit window_seconds now : Int) (freshId : String) :
    Except DBErr (CheckResult × List RateLimit) :=
  match conn with
  | none => Except.error DBErr.unavailable
  | some db => check_rate_limit db identifier identifier_type limit window_seconds now freshId

/-- The request.state.user_rate_limit triple stored for response headers. -/
structure UserRateInfo where
  limit : Int
  remaining : Int
  reset : Int
deriving DecidableEq, Repr

/-- Observable outcome of the check_user_rate_limit dependency: the request
proceeds, an HTTPException 429 is raised, or a store exception escapes the
dependency uncaught (there is no try/except around the check). -/
inductive UserRateOutcome where
  | proceed (info : UserRateInfo)
  | http429 (limit reset_time : Int)
  | storeError (e : DBErr)
deriving DecidableEq, Repr

/-- check_user_rate_limit (api/deps_rate_limit.py).  Superusers bypass the
check; otherwise the limit is looked up by role with fallback to the "user"
entry and check_rate_limit is consulted.  A rejection logs a violation and
raises 429; a store error propagates to the caller since the dependency has
no exception handler.  Returns the outcome, the session handle and the
violation table after the call. -/
def check_user_rate_limit (conn : Option (List RateLimit))
    (violations : List RateLimitViolation) (user_id : String)
    (is_superuser : Bool) (role : String) (now : Int)
    (freshWindowId freshViolationId : String) (endpoint : String)
    (user_agent : Option String) :
    UserRateOutcome × Option (List RateLimit) × List RateLimitViolation :=
  if is_superuser then
    (UserRateOutcome.proceed ⟨999999, 999999, now + RATE_LIMIT_WINDOW_SECONDS⟩,
     conn, violations)
  else
    let limit := get_user_rate_limit role
    match runCheck conn user_id "user" limit RATE_LIMIT_WINDOW_SECONDS now freshWindowId with
    | Except.error e => (UserRateOutcome.storeError e, conn, violations)
    | Except.ok (res, db') =>
      if res.is_allowed then
        (UserRateOutcome.proceed ⟨limit, res.remaining, res.reset_time⟩,
         some db', violations)
      else
        let violations' := log_violation violations freshViolationId user_id "user"
          "user_rate" (limit + 1) limit endpoint (some user_id) user_agent now
        (UserRateOutcome.http429 limit res.reset_time, some db', violations')

/-- SKIP_PATHS of RateLimitMiddleware. -/
def SKIP_PATHS : List String :=
  ["/health", "/docs", "/redoc", "/openapi.json", "/favicon.ico"]

/-- Observable outcome of RateLimitMiddleware.dispatch: the request is passed
to call_next without rate-limit headers (skip paths, OPTIONS, or the
fail-open except branch), passed on with headers, or answered with a 429. -/
inductive MiddlewareOutcome where
  | passThrough
  | proceedWithHeaders (limit remaining reset : Int)
  | reject429 (limit retry_after reset : Int)
deriving DecidableEq, Repr

/-- RateLimitMiddleware.dispatch (middleware/rate_limit.py), the rate-check
portion.  Any exception raised inside the session block is caught and the
request is processed normally (fail open). -/
def dispatch (conn : Option (List RateLimit)) (violations : List RateLimitViolation)
    (path method client_ip : String) (now : Int)
    (freshWindowId freshViolationId : String) (user_agent : Option String) :
    MiddlewareOutcome × Option (List RateLimit) × List RateLimitViolation :=
  if SKIP_PATHS.any (fun p => path.startsWith p) then
    (MiddlewareOutcome.passThrough, conn, violations)
  else if method == "OPTIONS" then
    (MiddlewareOutcome.passThrough, conn, violations)
  else
    match runCheck conn client_ip "ip" IP_RATE_LIMIT RATE_LIMIT_WINDOW_SECONDS now freshWindowId with
    | Except.error _ => (MiddlewareOutcome.passThrough, conn, violations)
    | Except.ok (res, db') =>
      if res.is_allowed then
        (MiddlewareOutcome.proceedWithHeaders IP_RATE_LIMIT res.remaining res.reset_time,
         some db', violations)
      else
        let violations' := log_violation violations freshViolationId client_ip "ip"
          "ip_rate" (IP_RATE_LIMIT + 1) IP_RATE_LIMIT path none user_agent now
        (MiddlewareOutcome.reject429 IP_RATE_LIMIT (max 1 (res.reset_time - now)) res.reset_time,
         some db', violations')

/-! The quota path (api/deps_rate_limit.py, check_calculation_quota). -/

/-- The request.state.quota_info triple stored for response headers. -/
structure QuotaInfo where
  limit : Int
  remaining : Int
  reset : Int
deriving DecidableEq, Repr

/-- Observable outcome of check_calculation_quota: the request proceeds, the
organization is missing (HTTP 400), or the quota is exhausted (HTTP 429 with
the limit and the used count of the detail payload). -/
inductive QuotaOutcome where
  | proceed (info : QuotaInfo)
  | http400
  | http429 (quota_limit quota_used : Int)
deriving DecidableEq, Repr

/-- The WHERE clause of the quota lookup: organization_id and year_month. -/
def quotaMatches (organization_id year_month : String) (q : OrganizationQuotaUsage) : Bool :=
  q.organization_id == organization_id && q.year_month == year_month

/-- check_calculation_quota (api/deps_rate_limit.py).  Users without an
organization are exempt.  Otherwise the organization is loaded, the row for
(organization, current month) is fetched or created with calculation_count = 0
and quota_limit snapshotted from the organization; a row at or above its
limit logs a violation and raises 429, otherwise calculation_count is
incremented.  current_month is datetime.utcnow().strftime of the call time
and next_month_start is _get_next_month_start(); both are passed in
explicitly.  Returns the outcome, the quota table and the violation table
after the call. -/
def check_calculation_quota (user_organization_id : Option String)
    (orgs : List Organization) (quotas : List OrganizationQuotaUsage)
    (violations : List RateLimitViolation) (current_month : String)
    (now next_month_start : Int) (freshQuotaId freshViolationId : String)
    (endpoint : String) (user_id : String) (user_agent : Option String) :
    Except DBErr (QuotaOutcome × List OrganizationQuotaUsage × List RateLimitViolation) :=
  match user_organization_id with
  | none =>
    Except.ok (QuotaOutcome.proceed ⟨999999, 999999, next_month_start⟩, quotas, violations)
  | some oid =>
    match orgs.find? (fun o => o.id == oid) with
    | none => Except.ok (QuotaOutcome.http400, quotas, violations)
    | some org =>
      match scalarOneOrNone (quotas.filter (quotaMatches org.id current_month)) with
      | Except.error e => Except.error e
      | Except.ok found =>
        let (q, quotasCur) :=
          match found with
          | some q => (q, quotas)
          | none =>
            let fresh : OrganizationQuotaUsage :=
              ⟨freshQuotaId, org.id, current_month, 0,
               org.max_calculations_per_month, now, none⟩
            (fresh, quotas ++ [fresh])
        if q.calculation_count ≥ q.quota_limit then
          let violations' := log_violation violations freshViolationId org.id
            "organization" "quota" (q.calculation_count + 1) q.quota_limit
            endpoint (some user_id) user_agent now
          Except.ok (QuotaOutcome.http429 q.quota_limit q.calculation_count,
            quotasCur, violations')
        else
          let quotasNew := quotasCur.map fun s =>
            if s.id == q.id then
              { s with calculation_count := s.calculation_count + 1,
                       updated_at := some now }
            else s
          Except.ok (QuotaOutcome.proceed
            ⟨q.quota_limit, q.quota_limit - (q.calculation_count + 1), next_month_start⟩,
            quotasNew, violations)

/-! Two-phase decomposition of the quota read-check-increment, for the
concurrency analysis.  check_calculation_quota issues a SELECT (lines
166-173), checks calculation_count >= quota_limit in Python (line 189), and
later issues a separate UPDATE writing the incremented in-session value
(lines 228-230).  Under the engine's default read-committed isolation
(db/session.py configures none stronger), two sessions may interleave
read-read-write-write.  The phases below are the SELECT and the UPDATE of
the source, so an interleaving of them is a legal store history. -/

/-- What one session observes from the SELECT phase on an existing row. -/
structure QuotaReadObservation where
  row_id : String
  calculation_count : Int
  quota_limit : Int
deriving DecidableEq, Repr

/-- SELECT phase: the unique row for (organization, month), if any. -/
def quotaRead (quotas : List OrganizationQuotaUsage)
    (organization_id current_month : String) : Option QuotaReadObservation :=
  match quotas.filter (quotaMatches organization_id current_month) with
  | [q] => some ⟨q.id, q.calculation_count, q.quota_limit⟩
  | _ => none

/-- UPDATE phase: commit of calculation_count += 1 on the in-session object,
writing observed count + 1 regardless of the row's current stored value. -/
def quotaWrite (quotas : List OrganizationQuotaUsage) (row_id : String)
    (observed_count now : Int) : List OrganizationQuotaUsage :=
  quotas.map fun s =>
    if s.id == row_id then
      { s with calculation_count := observed_count + 1, updated_at := some now }
    else s

/-- Two concurrent metered calls A and B under the schedule
A-SELECT, B-SELECT, A-check+UPDATE, B-check+UPDATE.  Returns whether A was
admitted, whether B was admitted, and the final quota table. -/
def racyQuotaRun (quotas : List OrganizationQuotaUsage)
    (organization_id current_month : String) (now : Int) :
    Bool × Bool × List OrganizationQuotaUsage :=
  match quotaRead quotas organization_id current_month,
        quotaRead quotas organization_id current_month with
  | some obsA, some obsB =>
    let allowedA := decide (obsA.calculation_count < obsA.quota_limit)
    let quotas1 :=
      if allowedA then quotaWrite quotas obsA.row_id obsA.calculation_count now
      else quotas
    let allowedB := decide (obsB.calculation_count < obsB.quota_limit)
    let quotas2 :=
      if allowedB then quotaWrite quotas1 obsB.row_id obsB.calculation_count now
      else quotas1
    (allowedA, allowedB, quotas2)
  | _, _ => (false, false, quotas)

/-! Iterated sequential calls to check_rate_limit, for the window-filling
property: each call threads the table it received from the previous one
(an erroring call leaves the table unchanged). -/

/-- Truth value of one collected call result: was the request admitted. -/
def resultAllowed : Except DBErr CheckResult → Bool
  | Except.ok res => res.is_allowed
  | Except.error _ => false

/-- Run check_rate_limit once per listed call time, in order, collecting the
results and the final table. -/
def runCalls (identifier identifier_type : String) (limit window_seconds : Int)
    (freshId : String) : List Int → List RateLimit →
    List (Except DBErr CheckResult) × List RateLimit
  | [], db => ([], db)
  | t :: ts, db =>
    match check_rate_limit db identifier identifier_type limit window_seconds t freshId with
    | Except.ok (res, db') =>
      let rest := runCalls identifier identifier_type limit window_seconds freshId ts db'
      (Except.ok res :: rest.1, rest.2)
    | Except.error e =>
      let rest := runCalls identifier identifier_type limit window_seconds freshId ts db
      (Except.error e :: rest.1, rest.2)

/-- The singleton table holding the one active window for an identifier, as
created by check_rate_limit at time t0 and incremented to count c. -/
def soleWindow (freshId identifier identifier_type : String) (c t0 window_seconds : Int) :
    RateLimit :=
  ⟨freshId, identifier, identifier_type, c, t0, t0 + window_seconds, none, t0⟩

/-- C4: a check_rate_limit call that finds the identifier's active window
already at or above the limit returns allowed = false with reset_time equal
to that window's window_end, and returns the table unchanged: the stored
request_count, window_start and window_end are exactly what they were. -/
theorem rejected_check_leaves_window_unchanged
    (db : List RateLimit) (identifier identifier_type : String)
    (limit window_seconds now : Int) (freshId : String) (r : RateLimit)
    (hfind : db.filter
      (windowMatches identifier identifier_type (now - window_seconds) now) = [r])
    (hge : r.request_count ≥ limit) :
    check_rate_limit db identifier identifier_type limit window_seconds now freshId =
      Except.ok (⟨false, 0, r.window_end⟩, db) := by
  unfold check_rate_limit
  simp [hfind, scalarOneOrNone, hge]

/-- Witness for C4 at a concrete exhausted window. -/
theorem rejected_check_leaves_window_unchanged_witness :
    check_rate_limit [⟨"w1", "u", "user", 5, 0, 60, none, 0⟩] "u" "user" 5 60 10 "f" =
      Except.ok (⟨false, 0, 60⟩, [⟨"w1", "u", "user", 5, 0, 60, none, 0⟩]) :=
  rejected_check_leaves_window_unchanged [⟨"w1", "u", "user", 5, 0, 60, none, 0⟩]
    "u" "user" 5 60 10 "f" ⟨"w1", "u", "user", 5, 0, 60, none, 0⟩
    (by decide) (by decide)

/-- C9: with no active window for the identifier, check_rate_limit creates a
window with request_count = 1 and admits the request whatever the limit is
(no comparison of the new count against the limit happens), reporting
remaining = limit - 1. -/
theorem fresh_window_first_request_admitted
    (db : List RateLimit) (identifier identifier_type : String)
    (limit window_seconds now : Int) (freshId : String)
    (hnone : db.filter
      (windowMatches identifier identifier_type (now - window_seconds) now) = []) :
    check_rate_limit db identifier identifier_type limit window_seconds now freshId =
      Except.ok (⟨true, limit - 1, now + window_seconds⟩,
        db ++ [⟨freshId, identifier, identifier_type, 1, now,
                now + window_seconds, none, now⟩]) := by
  unfold check_rate_limit
  simp [hnone, scalarOneOrNone]

/-- Witness for C9 with limit = 0: the first request from a fresh identifier
is still admitted and remaining is reported as -1. -/
theorem fresh_window_first_request_admitted_witness :
    check_rate_limit [] "i" "ip" 0 60 5 "f" =
      Except.ok (⟨true, -1, 65⟩, [⟨"f", "i", "ip", 1, 5, 65, none, 5⟩]) :=
  fresh_window_first_request_admitted [] "i" "ip" 0 60 5 "f" (by decide)

/-- C7: the Retention Sweeper is idempotent: a second cleanup_old_records or
cleanup_old_violations run over the table left by a first run (same clock
reading, no writes in between) reports a DELETE rowcount of zero. -/
theorem sweeper_idempotent (db : List RateLimit) (vdb : List RateLimitViolation)
    (now wdays vdays : Int) :
    (cleanup_old_records (cleanup_old_records db now wdays).1 now wdays).2 = 0 ∧
    (cleanup_old_violations (cleanup_old_violations vdb now vdays).1 now vdays).2 = 0 := by
  constructor <;>
    simp [cleanup_old_records, cleanup_old_violations, List.filter_filter]

/-- C8: the quota check-and-increment of check_calculation_quota is a SELECT,
a Python-side comparison and a separate UPDATE, not one atomic store-side
operation.  Under the schedule where two concurrent callers both run their
SELECT before either UPDATE commits, a fresh period with limit 1 admits both
callers, and the lost update even leaves the stored count at 1. -/
theorem quota_race_two_admits :
    racyQuotaRun [⟨"q1", "o1", "2024-05", 0, 1, 0, none⟩] "o1" "2024-05" 7 =
      (true, true, [⟨"q1", "o1", "2024-05", 1, 1, 0, some 7⟩]) := by decide

/-- C6 counterexample: a window row whose window_end lies inside the 7-day
retention threshold is nevertheless deleted, because cleanup_old_records
filters on created_at, not window_end. -/
theorem sweeper_deletes_by_created_at_cex :
    ¬ (⟨"w1", "1.2.3.4", "ip", 3, 0, 700000, none, 0⟩ : RateLimit).window_end <
        604801 - 7 * 86400 ∧
    cleanup_old_records [⟨"w1", "1.2.3.4", "ip", 3, 0, 700000, none, 0⟩] 604801 7 =
      ([], 1) := by decide

/-- C6 amended: the sweeper deletes exactly the CountingWindow rows whose
created_at is older than the window-retention threshold and exactly the
ViolationRecord rows whose created_at is older than the violation-retention
threshold. -/
theorem sweeper_deletes_exactly_older_created_at
    (db : List RateLimit) (vdb : List RateLimitViolation) (now wdays vdays : Int) :
    (∀ r ∈ db, (r ∈ (cleanup_old_records db now wdays).1 ↔
      ¬ r.created_at < now - wdays * 86400)) ∧
    (∀ v ∈ vdb, (v ∈ (cleanup_old_violations vdb now vdays).1 ↔
      ¬ v.created_at < now - vdays * 86400)) := by
  constructor <;> intro x hx <;>
    simp [cleanup_old_records, cleanup_old_violations, List.mem_filter, hx]

/-- Witness for the amended C6: a stale row is characterised as deleted and a
recent row as kept. -/
theorem sweeper_deletes_exactly_older_created_at_witness :
    ((⟨"w2", "ip2", "ip", 1, 700000, 700060, none, 700000⟩ : RateLimit) ∈
      (cleanup_old_records
        [⟨"w1", "ip1", "ip", 1, 0, 60, none, 0⟩,
         ⟨"w2", "ip2", "ip", 1, 700000, 700060, none, 700000⟩] 604801 7).1 ↔
      ¬ (700000 : Int) < 604801 - 7 * 86400) :=
  (sweeper_deletes_exactly_older_created_at
    [⟨"w1", "ip1", "ip", 1, 0, 60, none, 0⟩,
     ⟨"w2", "ip2", "ip", 1, 700000, 700060, none, 700000⟩] [] 604801 7 30).1
    _ (by decide)

/-- C3 counterexample: a store error during the user-tier check is not
swallowed: check_user_rate_limit has no exception handler, so with the store
unreachable the dependency surfaces the store error to the caller instead of
allowing the request through. -/
theorem user_rate_check_surfaces_store_error_cex :
    check_user_rate_limit none [] "u1" false "user" 0 "w1" "v1" "/x" none =
      (UserRateOutcome.storeError DBErr.unavailable, none, []) := by decide

/-- C3 amended: when the store check raises, the IP-tier middleware fails
open — the request is passed through with no client-visible error — while
the user-tier dependency propagates the store error to its caller. -/
theorem fail_open_ip_tier_only
    (conn : Option (List RateLimit)) (violations : List RateLimitViolation)
    (path method client_ip user_id role : String) (now : Int)
    (fw fv endpoint : String) (ua : Option String) (e e2 : DBErr)
    (hip : runCheck conn client_ip "ip" IP_RATE_LIMIT RATE_LIMIT_WINDOW_SECONDS
      now fw = Except.error e)
    (huser : runCheck conn user_id "user" (get_user_rate_limit role)
      RATE_LIMIT_WINDOW_SECONDS now fw = Except.error e2) :
    dispatch conn violations path method client_ip now fw fv ua =
      (MiddlewareOutcome.passThrough, conn, violations) ∧
    check_user_rate_limit conn violations user_id false role now fw fv endpoint ua =
      (UserRateOutcome.storeError e2, conn, violations) := by
  constructor
  · unfold dispatch
    split_ifs <;> simp [hip]
  · unfold check_user_rate_limit
    simp [huser]

/-- Witness for the amended C3: an unreachable store makes the middleware
pass the request through and makes the dependency surface the error. -/
theorem fail_open_ip_tier_only_witness :
    dispatch none [] "/api/x" "GET" "1.2.3.4" 0 "w1" "v1" none =
      (MiddlewareOutcome.passThrough, none, []) ∧
    check_user_rate_limit none [] "u1" false "viewer" 0 "w1" "v1" "/api/x" none =
      (UserRateOutcome.storeError DBErr.unavailable, none, []) :=
  fail_open_ip_tier_only none [] "/api/x" "GET" "1.2.3.4" "u1" "viewer" 0
    "w1" "v1" "/api/x" none DBErr.unavailable DBErr.unavailable rfl rfl

/-- C10: a role string outside the table (viewer, user, admin, superadmin)
falls back to the default "user" limit of 100: the lookup yields 100 and the
user-tier check behaves exactly as it does for the "user" role — it neither
rejects the unknown role nor treats it as unlimited. -/
theorem unknown_role_falls_back_to_user_limit (role : String)
    (conn : Option (List RateLimit)) (violations : List RateLimitViolation)
    (user_id : String) (now : Int) (fw fv endpoint : String) (ua : Option String)
    (hrole : role ∉ (["viewer", "user", "admin", "superadmin"] : List String)) :
    get_user_rate_limit role = 100 ∧
    check_user_rate_limit conn violations user_id false role now fw fv endpoint ua =
      check_user_rate_limit conn violations user_id false "user" now fw fv endpoint ua := by
  obtain ⟨h1, h2, h3, h4⟩ :
      role ≠ "viewer" ∧ role ≠ "user" ∧ role ≠ "admin" ∧ role ≠ "superadmin" := by
    simpa [not_or] using hrole
  have e1 : (("viewer" : String) == role) = false := by
    simpa [beq_iff_eq] using Ne.symm h1
  have e2 : (("user" : String) == role) = false := by
    simpa [beq_iff_eq] using Ne.symm h2
  have e3 : (("admin" : String) == role) = false := by
    simpa [beq_iff_eq] using Ne.symm h3
  have e4 : (("superadmin" : String) == role) = false := by
    simpa [beq_iff_eq] using Ne.symm h4
  have hget : get_user_rate_limit role = 100 := by
    simp [get_user_rate_limit, dictGet, USER_RATE_LIMITS_BY_ROLE, List.find?,
      e1, e2, e3, e4]
  have huser : get_user_rate_limit "user" = 100 := by decide
  exact ⟨hget, by unfold check_user_rate_limit; rw [hget, huser]⟩

/-- Witness for C10 at the unknown role "guest". -/
theorem unknown_role_falls_back_to_user_limit_witness :
    get_user_rate_limit "guest" = 100 ∧
    check_user_rate_limit (some []) [] "u1" false "guest" 0 "w1" "v1" "/x" none =
      check_user_rate_limit (some []) [] "u1" false "user" 0 "w1" "v1" "/x" none :=
  unknown_role_falls_back_to_user_limit "guest" (some []) [] "u1" 0 "w1" "v1" "/x"
    none (by decide)

/-- C2: on the organization's quota row for the current period,
check_calculation_quota admits and increments calculation_count by exactly
one when calculation_count < quota_limit, and rejects with HTTP 429 — the
row untouched, one violation logged — when calculation_count >= quota_limit. -/
theorem quota_threshold_admit_and_reject
    (oid current_month : String) (orgs : List Organization)
    (quotas : List OrganizationQuotaUsage) (violations : List RateLimitViolation)
    (now nms : Int) (fq fv ep uid : String) (ua : Option String)
    (org : Organization) (q : OrganizationQuotaUsage)
    (horg : orgs.find? (fun o => o.id == oid) = some org)
    (hq : quotas.filter (quotaMatches org.id current_month) = [q]) :
    (q.calculation_count < q.quota_limit →
      check_calculation_quota (some oid) orgs quotas violations current_month
          now nms fq fv ep uid ua =
        Except.ok (QuotaOutcome.proceed
            ⟨q.quota_limit, q.quota_limit - (q.calculation_count + 1), nms⟩,
          quotas.map (fun s => if s.id == q.id then
            { s with calculation_count := s.calculation_count + 1,
                     updated_at := some now } else s),
          violations)) ∧
    (q.calculation_count ≥ q.quota_limit →
      check_calculation_quota (some oid) orgs quotas violations current_month
          now nms fq fv ep uid ua =
        Except.ok (QuotaOutcome.http429 q.quota_limit q.calculation_count,
          quotas,
          log_violation violations fv org.id "organization" "quota"
            (q.calculation_count + 1) q.quota_limit ep (some uid) ua now)) := by
  constructor
  · intro hlt
    unfold check_calculation_quota
    simp [horg, hq, scalarOneOrNone, not_le.mpr hlt]
  · intro hge
    unfold check_calculation_quota
    simp [horg, hq, scalarOneOrNone, hge]

/-- Witness for C2 with limit 100 and used 99: the next metered call is
admitted bringing the count to 100, and the call after that in the same
period is rejected with 429. -/
theorem quota_threshold_admit_and_reject_witness :
    check_calculation_quota (some "o1") [⟨"o1", "free", 100⟩]
        [⟨"q1", "o1", "2024-05", 99, 100, 0, none⟩] [] "2024-05" 10 20
        "qn" "v1" "/c" "u1" none =
      Except.ok (QuotaOutcome.proceed ⟨100, 0, 20⟩,
        [⟨"q1", "o1", "2024-05", 100, 100, 0, some 10⟩], []) ∧
    check_calculation_quota (some "o1") [⟨"o1", "free", 100⟩]
        [⟨"q1", "o1", "2024-05", 100, 100, 0, some 10⟩] [] "2024-05" 11 20
        "qn" "v2" "/c" "u1" none =
      Except.ok (QuotaOutcome.http429 100 100,
        [⟨"q1", "o1", "2024-05", 100, 100, 0, some 10⟩],
        [⟨"v2", "o1", "organization", some "u1", "quota", 101, 100,
          some "/c", none, 11⟩]) :=
  ⟨(quota_threshold_admit_and_reject "o1" "2024-05" [⟨"o1", "free", 100⟩]
      [⟨"q1", "o1", "2024-05", 99, 100, 0, none⟩] [] 10 20 "qn" "v1" "/c" "u1"
      none ⟨"o1", "free", 100⟩ ⟨"q1", "o1", "2024-05", 99, 100, 0, none⟩
      (by decide) (by decide)).1 (by decide),
   (quota_threshold_admit_and_reject "o1" "2024-05" [⟨"o1", "free", 100⟩]
      [⟨"q1", "o1", "2024-05", 100, 100, 0, some 10⟩] [] 11 20 "qn" "v2" "/c"
      "u1" none ⟨"o1", "free", 100⟩ ⟨"q1", "o1", "2024-05", 100, 100, 0, some 10⟩
      (by decide) (by decide)).2 (by decide)⟩

/-- C5 counterexample: an organization whose plan limit snapshot is 0 and
whose previous-month period is exhausted (used = limit) has its first
metered call of the new month rejected with 429, not admitted — a fresh row
with used = 0 is created, but 0 >= 0 fails the admission check. -/
theorem month_rollover_zero_limit_rejects_cex :
    (⟨"qold", "o1", "2024-03", 0, 0, 0, none⟩ :
        OrganizationQuotaUsage).calculation_count =
      (⟨"qold", "o1", "2024-03", 0, 0, 0, none⟩ :
        OrganizationQuotaUsage).quota_limit ∧
    check_calculation_quota (some "o1") [⟨"o1", "free", 0⟩]
        [⟨"qold", "o1", "2024-03", 0, 0, 0, none⟩] [] "2024-04" 100 200
        "qnew" "v1" "/calc" "u1" none =
      Except.ok (QuotaOutcome.http429 0 0,
        [⟨"qold", "o1", "2024-03", 0, 0, 0, none⟩,
         ⟨"qnew", "o1", "2024-04", 0, 0, 100, none⟩],
        [⟨"v1", "o1", "organization", some "u1", "quota", 1, 0,
          some "/calc", none, 100⟩]) := ⟨rfl, rfl⟩

/-- C5 amended: after the period key changes, the first metered call finds no
row for the new month and creates a fresh one with used = 0, whatever rows
earlier periods left behind (an exhausted previous month does not block it);
the call is admitted — the fresh row incremented to 1 — provided the
organization's current limit snapshot is at least 1. -/
theorem month_rollover_fresh_period_admits
    (oid current_month : String) (orgs : List Organization)
    (quotas : List OrganizationQuotaUsage) (violations : List RateLimitViolation)
    (now nms : Int) (fq fv ep uid : String) (ua : Option String)
    (org : Organization)
    (horg : orgs.find? (fun o => o.id == oid) = some org)
    (hnone : quotas.filter (quotaMatches org.id current_month) = [])
    (hfresh : ∀ s ∈ quotas, (s.id == fq) = false)
    (hpos : 1 ≤ org.max_calculations_per_month) :
    check_calculation_quota (some oid) orgs quotas violations current_month
        now nms fq fv ep uid ua =
      Except.ok (QuotaOutcome.proceed
          ⟨org.max_calculations_per_month, org.max_calculations_per_month - 1, nms⟩,
        quotas ++ [⟨fq, org.id, current_month, 1,
          org.max_calculations_per_month, now, some now⟩],
        violations) := by
  unfold check_calculation_quota
  simp only [horg, hnone, scalarOneOrNone]
  have hno : ¬ ((⟨fq, org.id, current_month, 0, org.max_calculations_per_month,
      now, none⟩ : OrganizationQuotaUsage).calculation_count ≥
        (⟨fq, org.id, current_month, 0, org.max_calculations_per_month,
          now, none⟩ : OrganizationQuotaUsage).quota_limit) := by
    simp; omega
  simp only [hno, if_false, List.map_append]
  rw [List.map_congr_left (g := id) (fun s hs => by simp [hfresh s hs])]
  simp

/-- Witness for the amended C5: a 100/100-exhausted March period does not
block the first April call; a fresh row is created and incremented to 1. -/
theorem month_rollover_fresh_period_admits_witness :
    check_calculation_quota (some "o1") [⟨"o1", "free", 100⟩]
        [⟨"qold", "o1", "2024-03", 100, 100, 0, none⟩] [] "2024-04" 50 99
        "qnew" "v1" "/calc" "u1" none =
      Except.ok (QuotaOutcome.proceed ⟨100, 99, 99⟩,
        [⟨"qold", "o1", "2024-03", 100, 100, 0, none⟩,
         ⟨"qnew", "o1", "2024-04", 1, 100, 50, some 50⟩], []) :=
  month_rollover_fresh_period_admits "o1" "2024-04" [⟨"o1", "free", 100⟩]
    [⟨"qold", "o1", "2024-03", 100, 100, 0, none⟩] [] 50 99 "qnew" "v1" "/calc"
    "u1" none ⟨"o1", "free", 100⟩ (by decide) (by decide) (by decide) (by decide)

/-- The sole active window matches the lookup clause at any time before its
window_end. -/
theorem windowMatches_sole (identifier identifier_type freshId : String)
    (c t0 window_seconds t : Int) (ht : t < t0 + window_seconds) :
    windowMatches identifier identifier_type (t - window_seconds) t
      (soleWindow freshId identifier identifier_type c t0 window_seconds) = true := by
  simp [windowMatches, soleWindow]
  omega

/-- One admitted call on the sole active window: under the limit, the count
is incremented and the request admitted. -/
theorem check_step_under (identifier identifier_type freshId fid2 : String)
    (limit window_seconds c t0 t : Int) (ht : t < t0 + window_seconds)
    (hc : c < limit) :
    check_rate_limit [soleWindow freshId identifier identifier_type c t0 window_seconds]
        identifier identifier_type limit window_seconds t fid2 =
      Except.ok (⟨true, limit - (c + 1), t0 + window_seconds⟩,
        [soleWindow freshId identifier identifier_type (c + 1) t0 window_seconds]) := by
  have hm := windowMatches_sole identifier identifier_type freshId c t0 window_seconds t ht
  unfold check_rate_limit
  simp only [List.filter_cons, hm, if_true, List.filter_nil, scalarOneOrNone]
  simp [soleWindow, not_le.mpr hc]

/-- One rejected call on the sole active window: at or above the limit, the
call reports allowed = false with the window's end and changes nothing. -/
theorem check_step_reject (identifier identifier_type freshId fid2 : String)
    (limit window_seconds c t0 t : Int) (ht : t < t0 + window_seconds)
    (hc : limit ≤ c) :
    check_rate_limit [soleWindow freshId identifier identifier_type c t0 window_seconds]
        identifier identifier_type limit window_seconds t fid2 =
      Except.ok (⟨false, 0, t0 + window_seconds⟩,
        [soleWindow freshId identifier identifier_type c t0 window_seconds]) := by
  have hm := windowMatches_sole identifier identifier_type freshId c t0 window_seconds t ht
  unfold check_rate_limit
  simp only [List.filter_cons, hm, if_true, List.filter_nil, scalarOneOrNone]
  simp [soleWindow, hc]

/-- The first call on an empty table creates the sole window with count 1. -/
theorem check_step_create (identifier identifier_type freshId : String)
    (limit window_seconds t0 : Int) :
    check_rate_limit [] identifier identifier_type limit window_seconds t0 freshId =
      Except.ok (⟨true, limit - 1, t0 + window_seconds⟩,
        [soleWindow freshId identifier identifier_type 1 t0 window_seconds]) := by
  simp [check_rate_limit, scalarOneOrNone, soleWindow]

/-- Running calls over a concatenation of time lists threads the table. -/
theorem runCalls_append (identifier identifier_type : String)
    (limit window_seconds : Int) (freshId : String) (as bs : List Int)
    (db : List RateLimit) :
    runCalls identifier identifier_type limit window_seconds freshId (as ++ bs) db =
      ((runCalls identifier identifier_type limit window_seconds freshId as db).1 ++
        (runCalls identifier identifier_type limit window_seconds freshId bs
          (runCalls identifier identifier_type limit window_seconds freshId as db).2).1,
       (runCalls identifier identifier_type limit window_seconds freshId bs
          (runCalls identifier identifier_type limit window_seconds freshId as db).2).2) := by
  induction as generalizing db with
  | nil => simp [runCalls]
  | cons a as ih =>
    cases hc : check_rate_limit db identifier identifier_type limit window_seconds a freshId with
    | ok p => simp only [List.cons_append, runCalls, hc, List.append_eq, ih]
    | error e => simp only [List.cons_append, runCalls, hc, List.append_eq, ih]

/-- While the running count plus the remaining calls stays within the limit,
every call is admitted and the sole window's count grows by one per call. -/
theorem runCalls_under_limit (identifier identifier_type freshId fid2 : String)
    (limit window_seconds t0 : Int) (ts : List Int) :
    ∀ c : Int, (∀ t ∈ ts, t < t0 + window_seconds) →
      c + (ts.length : Int) ≤ limit →
      ((runCalls identifier identifier_type limit window_seconds fid2 ts
          [soleWindow freshId identifier identifier_type c t0 window_seconds]).1.all
        resultAllowed = true) ∧
      ((runCalls identifier identifier_type limit window_seconds fid2 ts
          [soleWindow freshId identifier identifier_type c t0 window_seconds]).1.length =
        ts.length) ∧
      ((runCalls identifier identifier_type limit window_seconds fid2 ts
          [soleWindow freshId identifier identifier_type c t0 window_seconds]).2 =
        [soleWindow freshId identifier identifier_type (c + (ts.length : Int))
          t0 window_seconds]) := by
  induction ts with
  | nil => intro c _ _; simp [runCalls]
  | cons t ts ih =>
    intro c hin hle
    have ht : t < t0 + window_seconds := hin t (List.mem_cons_self t ts)
    have hc : c < limit := by
      simp only [List.length_cons] at hle
      push_cast at hle
      have : (0 : Int) ≤ (ts.length : Int) := Int.ofNat_nonneg ts.length
      omega
    have hstep := check_step_under identifier identifier_type freshId fid2
      limit window_seconds c t0 t ht hc
    obtain ⟨ih1, ih2, ih3⟩ := ih (c + 1)
      (fun x hx => hin x (List.mem_cons_of_mem t hx))
      (by simp only [List.length_cons] at hle; push_cast at hle ⊢; omega)
    refine ⟨?_, ?_, ?_⟩
    · simp only [runCalls, hstep, List.all_cons, ih1, resultAllowed, Bool.and_true]
    · simp only [runCalls, hstep, List.length_cons, ih2]
    · simp only [runCalls, hstep, ih3, List.length_cons]
      have harith : c + 1 + (ts.length : Int) = c + ((ts.length : Int) + 1) := by ring
      push_cast
      rw [harith]

/-- C1: from a fresh (empty) table, issuing exactly L calls (L >= 1 = limit)
inside one window admits all L of them, and the (L + 1)-th call inside the
same window is rejected with reset_time equal to the window's window_end. -/
theorem rate_limit_admits_exactly_limit_then_rejects
    (identifier identifier_type freshId : String) (window_seconds : Int)
    (L : Nat) (hL : 1 ≤ L) (t0 : Int) (ts : List Int)
    (hlen : ts.length = L)
    (hin : ∀ t ∈ ts, t0 ≤ t ∧ t < t0 + window_seconds) :
    (((runCalls identifier identifier_type (L : Int) window_seconds freshId
        (t0 :: ts) []).1.take L).all resultAllowed = true) ∧
    ((runCalls identifier identifier_type (L : Int) window_seconds freshId
        (t0 :: ts) []).1.getLast? =
      some (Except.ok ⟨false, 0, t0 + window_seconds⟩)) := by
  rcases List.eq_nil_or_concat' ts with rfl | ⟨ts', tl, rfl⟩
  · simp at hlen; omega
  have hlen' : ts'.length + 1 = L := by simpa using hlen
  have hin' : ∀ t ∈ ts', t < t0 + window_seconds := fun t htm =>
    (hin t (List.mem_append_left _ htm)).2
  have htl : tl < t0 + window_seconds :=
    (hin tl (List.mem_append_right _ (List.mem_singleton.mpr rfl))).2
  obtain ⟨a1, a2, a3⟩ := runCalls_under_limit identifier identifier_type
    freshId freshId (L : Int) window_seconds t0 ts' 1 hin' (by omega)
  have hLsole : (1 : Int) + (ts'.length : Int) = (L : Int) := by omega
  have hfull :
      runCalls identifier identifier_type (L : Int) window_seconds freshId
        (t0 :: (ts' ++ [tl])) [] =
      (Except.ok ⟨true, (L : Int) - 1, t0 + window_seconds⟩ ::
        ((runCalls identifier identifier_type (L : Int) window_seconds freshId ts'
          [soleWindow freshId identifier identifier_type 1 t0 window_seconds]).1 ++
         [Except.ok ⟨false, 0, t0 + window_seconds⟩]),
       [soleWindow freshId identifier identifier_type (L : Int) t0 window_seconds]) := by
    simp only [runCalls, check_step_create identifier identifier_type freshId
      (L : Int) window_seconds t0]
    rw [runCalls_append]
    rw [a3, hLsole]
    simp only [runCalls, check_step_reject identifier identifier_type freshId
      freshId (L : Int) window_seconds (L : Int) t0 tl htl (le_refl _)]
  rw [hfull]
  constructor
  · rw [← List.cons_append]
    rw [List.take_left' (by simp [a2]; omega)]
    simp [resultAllowed, a1]
  · rw [← List.cons_append, List.getLast?_concat]

/-- Witness for C1 with limit 2 and a 60-second window: two calls at times 0
and 10 are admitted, the third at time 20 is rejected with reset 60. -/
theorem rate_limit_admits_exactly_limit_then_rejects_witness :
    (((runCalls "i" "ip" ((2 : Nat) : Int) 60 "f" [0, 10, 20] []).1.take 2).all
      resultAllowed = true) ∧
    ((runCalls "i" "ip" ((2 : Nat) : Int) 60 "f" [0, 10, 20] []).1.getLast? =
      some (Except.ok ⟨false, 0, 0 + 60⟩)) :=
  rate_limit_admits_exactly_limit_then_rejects "i" "ip" "f" 60 2
    (by decide) 0 [10, 20] (by decide) (by decide)
